import Mathlib

/-!
Shallow embedding of `rew2streammagic` (src/rew2streammagic/main.py):
a line-oriented REW equalizer-file scanner (`parse_eq_file`) built around the
regular expression

  `^Filter\s+(\d+):\s+ON\s+([A-Z]+)\s+Fc\s+([\d.]+)\s*Hz`
  `(?:\s+Gain\s+([\-\d.]+)\s*dB)?(?:\s+Q\s+([\d.]+))?`

and a device-session workflow (`connect_and_apply_eq`).  The regex is embedded
as a deterministic maximal-munch matcher: every pair of adjacent pattern
elements draws from disjoint character classes, and the two optional groups
are all-or-nothing with an always-succeeding tail, so Python's backtracking
search never produces a match different from maximal munching.  Machine floats
are modelled as exact rationals (every literal reachable here is a short
decimal string, far from any binary-rounding boundary).  Character classes are
modelled over ASCII.
-/

namespace Rew2StreamMagic

/-- Python's `\s` class (ASCII range), also used by `str.strip`. -/
def pyIsSpace (c : Char) : Bool :=
  c = ' ' || c = '\t' || c = '\n' || c = '\r' || c = '\x0b' || c = '\x0c'

/-- character class `[\d.]` of the frequency and Q capture groups. -/
def isDigitDot (c : Char) : Bool := c.isDigit || c = '.'

/-- character class `[\-\d.]` of the gain capture group. -/
def isGainChar (c : Char) : Bool := c = '-' || c.isDigit || c = '.'

/-- character class `[A-Z]` of the filter-code capture group. -/
def isUpperAZ (c : Char) : Bool := 'A' ≤ c && c ≤ 'Z'

/-- Python `str.strip()` (ASCII whitespace model). -/
def pyStrip (cs : List Char) : List Char :=
  ((cs.dropWhile pyIsSpace).reverse.dropWhile pyIsSpace).reverse

/-- greedy `p*`: the maximal run of characters satisfying `p`, and the rest. -/
def munch0 (p : Char → Bool) : List Char → List Char × List Char
  | [] => ([], [])
  | c :: cs =>
      if p c then ((munch0 p cs).1.cons c, (munch0 p cs).2) else ([], c :: cs)

/-- greedy `p+`: fails when no character matches. -/
def munch1 (p : Char → Bool) (cs : List Char) : Option (List Char × List Char) :=
  match cs with
  | [] => none
  | c :: cs => if p c then some ((munch0 p cs).1.cons c, (munch0 p cs).2) else none

/-- consume a literal character sequence. -/
def eatLit : List Char → List Char → Option (List Char)
  | [], cs => some cs
  | _ :: _, [] => none
  | l :: ls, c :: cs => if c = l then eatLit ls cs else none

/-- the five capture groups of `band_pattern` (raw captured text). -/
structure RawMatch where
  numS : List Char
  codeS : List Char
  freqS : List Char
  gainS : Option (List Char)
  qS : Option (List Char)
deriving DecidableEq

/-- optional group `(?:\s+Gain\s+([\-\d.]+)\s*dB)?`. -/
def gainClause (cs : List Char) : Option (List Char × List Char) := do
  let (_, cs) ← munch1 pyIsSpace cs
  let cs ← eatLit "Gain".data cs
  let (_, cs) ← munch1 pyIsSpace cs
  let (g, cs) ← munch1 isGainChar cs
  let cs := (munch0 pyIsSpace cs).2
  let cs ← eatLit "dB".data cs
  pure (g, cs)

/-- optional group `(?:\s+Q\s+([\d.]+))?`. -/
def qClause (cs : List Char) : Option (List Char × List Char) := do
  let (_, cs) ← munch1 pyIsSpace cs
  let cs ← eatLit "Q".data cs
  let (_, cs) ← munch1 pyIsSpace cs
  let (q, cs) ← munch1 isDigitDot cs
  pure (q, cs)

/-- a `(?: ...)?` group: match greedily, or consume nothing. -/
def tryGroup (f : List Char → Option (List Char × List Char)) (cs : List Char) :
    Option (List Char) × List Char :=
  match f cs with
  | some (g, cs') => (some g, cs')
  | none => (none, cs)

/-- pipeline tail from the position where the literal status token `ON`
is required (just after `Filter\s+(\d+):\s+`). -/
def afterON (numS : List Char) (cs : List Char) : Option RawMatch := do
  let (_, cs) ← munch1 pyIsSpace cs
  let (codeS, cs) ← munch1 isUpperAZ cs
  let (_, cs) ← munch1 pyIsSpace cs
  let cs ← eatLit "Fc".data cs
  let (_, cs) ← munch1 pyIsSpace cs
  let (freqS, cs) ← munch1 isDigitDot cs
  let cs := (munch0 pyIsSpace cs).2
  let cs ← eatLit "Hz".data cs
  let (gainS, cs) := tryGroup gainClause cs
  let (qS, _) := tryGroup qClause cs
  pure ⟨numS, codeS, freqS, gainS, qS⟩

/-- consume the mandatory status token `ON` and continue. -/
def stageON (numS : List Char) (cs : List Char) : Option RawMatch := do
  let cs ← eatLit "ON".data cs
  afterON numS cs

/-- `band_pattern.match` on an (already stripped) line: `re.match` anchors at
the start only; trailing unmatched text is ignored. -/
def bandMatch (cs : List Char) : Option RawMatch := do
  let cs ← eatLit "Filter".data cs
  let (_, cs) ← munch1 pyIsSpace cs
  let (numS, cs) ← munch1 Char.isDigit cs
  let cs ← eatLit ":".data cs
  let (_, cs) ← munch1 pyIsSpace cs
  stageON numS cs

/-- value of a digit string, as Python `int` computes it. -/
def digitsToNat (cs : List Char) : ℕ :=
  cs.foldl (fun acc c => acc * 10 + (c.toNat - 48)) 0

/-- Python `float()` on an unsigned string drawn from digits and dots:
accepts `d+`, `d+.`, `d+.d+`, `.d+` and yields (numerator, denominator);
anything else (empty, bare dot, a second dot, a stray character) raises
`ValueError`, modelled as `none`. -/
def pyFloatParts? (cs : List Char) : Option (ℕ × ℕ) :=
  let ip := cs.takeWhile Char.isDigit
  let rest := cs.dropWhile Char.isDigit
  match rest with
  | [] => if ip.isEmpty then none else some (digitsToNat ip, 1)
  | '.' :: frac =>
      if frac.all Char.isDigit then
        if ip.isEmpty && frac.isEmpty then none
        else some (digitsToNat ip * 10 ^ frac.length + digitsToNat frac, 10 ^ frac.length)
      else none
  | _ => none

/-- Python `float()` on the strings producible by the numeric capture groups
(digits, dots, and for the gain group a possibly leading minus). -/
def pyFloat? (cs : List Char) : Option ℚ :=
  match cs with
  | [] => none
  | c :: rest =>
      if c = '-' then (pyFloatParts? rest).map (fun p => mkRat (-(p.1 : ℤ)) p.2)
      else (pyFloatParts? (c :: rest)).map (fun p => mkRat p.1 p.2)

/-- Python `int()` on a float value: truncation toward zero (for a rational
in lowest terms with positive denominator, `tdiv` of numerator by
denominator). -/
def pyTrunc (q : ℚ) : ℤ := Int.tdiv q.num q.den

/-- Modelled from the spec: `EQFilterType` is imported from the external
`aiostreammagic` package (not part of this repository); the spec's
`FilterTypeCode` lists exactly the five recognized filter shapes, named here
as the target values of the source's `filter_map`. -/
inductive EQFilterType
  | LOWSHELF | PEAKING | HIGHSHELF | LOWPASS | HIGHPASS
deriving DecidableEq

/-- Modelled from the spec: `EQFilterType[name]` member lookup; an unknown
name raises `KeyError`, modelled as `none`. -/
def eqFilterTypeOfName (s : String) : Option EQFilterType :=
  if s = "LOWSHELF" then some .LOWSHELF
  else if s = "PEAKING" then some .PEAKING
  else if s = "HIGHSHELF" then some .HIGHSHELF
  else if s = "LOWPASS" then some .LOWPASS
  else if s = "HIGHPASS" then some .HIGHPASS
  else none

/-- `filter_map.get(code, code)`: abbreviation table with passthrough default. -/
def filterMapGet (s : String) : String :=
  if s = "LS" then "LOWSHELF"
  else if s = "PK" then "PEAKING"
  else if s = "HS" then "HIGHSHELF"
  else if s = "LP" then "LOWPASS"
  else if s = "HP" then "HIGHPASS"
  else s

/-- Modelled from the spec: `EQBand` is imported from the external
`aiostreammagic` package; the spec's `BandRecord` gives its fields
(zero-based `index`, filter type, integer `freq`, optional `gain`/`q`); its
constructor stores the given values (the spec lists code resolution and
numeric parsing as the only construction-time failure modes). -/
structure EQBand where
  index : ℤ
  filter : EQFilterType
  freq : ℤ
  gain : Option ℚ
  q : Option ℚ
deriving DecidableEq

/-- the one Python exception class that can escape the per-line numeric
conversions in `parse_eq_file` (and is re-raised by its outer handler). -/
inductive PyError
  | valueError
deriving DecidableEq

instance {ε α : Type} [DecidableEq ε] [DecidableEq α] : DecidableEq (Except ε α)
  | .ok a, .ok b => if h : a = b then .isTrue (by rw [h]) else .isFalse (by simp [h])
  | .error a, .error b => if h : a = b then .isTrue (by rw [h]) else .isFalse (by simp [h])
  | .ok _, .error _ => .isFalse (by simp)
  | .error _, .ok _ => .isFalse (by simp)

/-- `float(...)` on an optional capture group (`None` stays `None`). -/
def parseOptFloat : Option (List Char) → Except PyError (Option ℚ)
  | none => .ok none
  | some gs =>
      match pyFloat? gs with
      | none => .error .valueError
      | some g => .ok (some g)

/-- per-match body of the scan loop: the `float` conversions sit outside the
inner `try`, so their failures escape as `ValueError`; only the
`EQFilterType` lookup failure (`KeyError`) is caught and turned into a
skip (`none`). -/
def mkBand (m : RawMatch) : Except PyError (Option EQBand) :=
  match pyFloat? m.freqS with
  | none => .error .valueError
  | some fq =>
      match parseOptFloat m.gainS with
      | .error e => .error e
      | .ok g =>
          match parseOptFloat m.qS with
          | .error e => .error e
          | .ok qv =>
              match eqFilterTypeOfName (filterMapGet (String.mk m.codeS)) with
              | none => .ok none
              | some ft =>
                  .ok (some ⟨(digitsToNat m.numS : ℤ) - 1, ft, pyTrunc fq, g, qv⟩)

/-- one iteration of the scan loop: strip the line, match the pattern
(`none` result means the line is skipped), then build the band. -/
def processLine (line : String) : Except PyError (Option EQBand) :=
  match bandMatch (pyStrip line.data) with
  | none => .ok none
  | some m => mkBand m

/-- the scan loop of `parse_eq_file`: accumulate bands in file order and
break as soon as the collection reaches 7. -/
def parseLoop : List String → List EQBand → Except PyError (List EQBand)
  | [], acc => .ok acc
  | l :: ls, acc =>
      match processLine l with
      | .error e => .error e
      | .ok none => parseLoop ls acc
      | .ok (some b) =>
          if acc.length + 1 = 7 then .ok (acc ++ [b]) else parseLoop ls (acc ++ [b])

/-- `parse_eq_file` on a readable stream, given as its list of lines (the
file-access failures modelled away by assuming the stream is readable). -/
def parse_eq_file (lines : List String) : Except PyError (List EQBand) :=
  parseLoop lines []

/-- the exception categories of the session's `except` clauses, all of which
`connect_and_apply_eq` converts to `False`. -/
inductive NetError
  | timeoutError | clientConnectorError | clientError | osError | otherError
deriving DecidableEq

/-- outcome script for one session: what each external device call would do
(`StreamMagicClient` is an external collaborator; its operations are
abstracted as given outcomes, `none`/`.ok` meaning the call succeeds). -/
structure SessionEnv where
  hostValid : Bool
  connect : Option NetError
  getInfo : Except NetError (ℕ × ℕ)
  setEq : Option NetError
  disconnect : Option NetError

/-- which stages of the session body were reached. -/
structure Trace where
  connectAttempted : Bool
  infoQueried : Bool
  applyAttempted : Bool
  disconnectAttempted : Bool
deriving DecidableEq

/-- Modelled from the spec: `packaging.version.Version` comparison against
the fixed floor `"1.9"`; the spec prescribes semantic (major, minor)
ordering, `reported ≥ floor`. -/
def versionAtLeast19 (v : ℕ × ℕ) : Bool :=
  decide (1 < v.1) || (decide (v.1 = 1) && decide (9 ≤ v.2))

/-- body of the big `try` in `connect_and_apply_eq`: connect, query info,
version-gate, apply, disconnect.  On a version below the floor the source
does `return False` before ever reaching `client.disconnect()`; any raised
error propagates out of the body (to be caught by the handlers). -/
def sessionTry (env : SessionEnv) : Trace × Except NetError Bool :=
  match env.connect with
  | some e => (⟨true, false, false, false⟩, .error e)
  | none =>
      match env.getInfo with
      | .error e => (⟨true, true, false, false⟩, .error e)
      | .ok v =>
          if versionAtLeast19 v then
            match env.setEq with
            | some e => (⟨true, true, true, false⟩, .error e)
            | none =>
                match env.disconnect with
                | some e => (⟨true, true, true, true⟩, .error e)
                | none => (⟨true, true, true, true⟩, .ok true)
          else (⟨true, true, false, false⟩, .ok false)

/-- `connect_and_apply_eq`: validate the host address (a `ValueError` is
caught and turned into `return False`), then run the session body; every
`except` clause (timeout, connector, client, OS, catch-all) returns `False`. -/
def connect_and_apply_eq (env : SessionEnv) : Trace × Except NetError Bool :=
  if env.hostValid then
    match sessionTry env with
    | (t, .error _) => (t, .ok false)
    | (t, .ok b) => (t, .ok b)
  else (⟨false, false, false, false⟩, .ok false)

/-- an `Except` value that is not an exception. -/
def exceptIsOk : Except NetError Bool → Bool
  | .ok _ => true
  | .error _ => false

/-!
Auxiliary lemmas: behavior of the session workflow on each failure category,
the scan loop's 7-band cap, the shape of a successfully constructed band, and
the matcher's handling of the status token and of the numeric captures.
-/

theorem capply_never_raises (env : SessionEnv) :
    ∃ b t, connect_and_apply_eq env = (t, .ok b) := by
  unfold connect_and_apply_eq
  split
  · rcases h : sessionTry env with ⟨t, r⟩
    cases r <;> exact ⟨_, _, rfl⟩
  · exact ⟨_, _, rfl⟩

theorem capply_transport_fail (env : SessionEnv) (e : NetError)
    (hv : env.hostValid = true) (hc : env.connect = some e) :
    connect_and_apply_eq env = (⟨true, false, false, false⟩, .ok false) := by
  unfold connect_and_apply_eq sessionTry
  rw [hv, hc]
  simp

theorem capply_old_version (env : SessionEnv) (v : ℕ × ℕ)
    (hv : env.hostValid = true) (hc : env.connect = none)
    (hi : env.getInfo = .ok v) (hver : versionAtLeast19 v = false) :
    connect_and_apply_eq env = (⟨true, true, false, false⟩, .ok false) := by
  unfold connect_and_apply_eq sessionTry
  rw [hv, hc, hi]
  simp [hver]

theorem capply_invalid_host (env : SessionEnv) (hv : env.hostValid = false) :
    connect_and_apply_eq env = (⟨false, false, false, false⟩, .ok false) := by
  unfold connect_and_apply_eq
  rw [hv]
  simp

theorem parseLoop_length_le :
    ∀ (ls : List String) (acc bs : List EQBand), acc.length < 7 →
      parseLoop ls acc = .ok bs → bs.length ≤ 7 := by
  intro ls
  induction ls with
  | nil =>
      intro acc bs hlt h
      simp only [parseLoop] at h
      cases h
      omega
  | cons l ls ih =>
      intro acc bs hlt h
      simp only [parseLoop] at h
      cases hp : processLine l with
      | error e => rw [hp] at h; cases h
      | ok ob =>
          rw [hp] at h
          cases ob with
          | none => exact ih acc bs hlt h
          | some b =>
              dsimp only at h
              by_cases h7 : acc.length + 1 = 7
              · rw [if_pos h7] at h
                cases h
                simp [h7]
              · rw [if_neg h7] at h
                exact ih (acc ++ [b]) bs (by simp; omega) h

theorem parseLoop_stop :
    ∀ (ls extra : List String) (acc bs : List EQBand), acc.length < 7 →
      parseLoop ls acc = .ok bs → bs.length = 7 →
      parseLoop (ls ++ extra) acc = .ok bs := by
  intro ls
  induction ls with
  | nil =>
      intro extra acc bs hlt h h7
      simp only [parseLoop] at h
      cases h
      omega
  | cons l ls ih =>
      intro extra acc bs hlt h h7
      simp only [parseLoop] at h
      simp only [List.cons_append, parseLoop]
      cases hp : processLine l with
      | error e => rw [hp] at h; cases h
      | ok ob =>
          rw [hp] at h
          cases ob with
          | none => exact ih extra acc bs hlt h h7
          | some b =>
              dsimp only at h ⊢
              by_cases hc : acc.length + 1 = 7
              · rw [if_pos hc] at h ⊢
                exact h
              · rw [if_neg hc] at h ⊢
                exact ih extra (acc ++ [b]) bs (by simp; omega) h h7

theorem mkBand_ok_spec (m : RawMatch) (b : EQBand) (h : mkBand m = .ok (some b)) :
    ∃ fq, pyFloat? m.freqS = some fq ∧ b.freq = pyTrunc fq ∧
      b.index = (digitsToNat m.numS : ℤ) - 1 ∧
      (m.gainS = none → b.gain = none) ∧ (m.qS = none → b.q = none) := by
  unfold mkBand at h
  split at h
  · cases h
  next fq hfq =>
    split at h
    · cases h
    next g hg =>
      split at h
      · cases h
      next qv hq =>
        split at h
        · cases h
        next ft hft =>
          refine ⟨fq, hfq, ?_⟩
          cases h with
          | refl =>
            refine ⟨rfl, rfl, ?_, ?_⟩
            · intro hgn; rw [hgn] at hg; simp [parseOptFloat] at hg; simp [hg]
            · intro hqn; rw [hqn] at hq; simp [parseOptFloat] at hq; simp [hq]

theorem munch0_neg (p : Char → Bool) (c : Char) (cs : List Char) (h : p c = false) :
    munch0 p (c :: cs) = ([], c :: cs) := by simp [munch0, h]

theorem munch1_pos (p : Char → Bool) (c : Char) (cs : List Char) (h : p c = true) :
    munch1 p (c :: cs) = some ((munch0 p cs).1.cons c, (munch0 p cs).2) := by
  simp [munch1, h]

theorem munch1_neg (p : Char → Bool) (c : Char) (cs : List Char) (h : p c = false) :
    munch1 p (c :: cs) = none := by simp [munch1, h]

theorem stageON_fail (numS status rest : List Char) (hne : status ≠ [])
    (hall : ∀ c ∈ status, pyIsSpace c = false) (hON : status ≠ ['O', 'N']) :
    stageON numS (status ++ ' ' :: rest) = none := by
  match status with
  | [] => exact absurd rfl hne
  | [c] =>
      simp only [stageON, List.cons_append, List.nil_append, Option.bind_eq_bind]
      have he : eatLit "ON".data (c :: ' ' :: rest) = none := by
        by_cases hc : c = 'O'
        · subst hc; rfl
        · simp [eatLit, hc]
      rw [he]
      rfl
  | c1 :: c2 :: cs' =>
      simp only [stageON, List.cons_append, Option.bind_eq_bind]
      by_cases h1 : c1 = 'O'
      · by_cases h2 : c2 = 'N'
        · subst h1; subst h2
          have he : eatLit "ON".data ('O' :: 'N' :: (cs' ++ ' ' :: rest)) =
              some (cs' ++ ' ' :: rest) := rfl
          rw [he]
          match cs' with
          | [] => exact absurd rfl hON
          | c3 :: cs'' =>
              have h3 : pyIsSpace c3 = false := hall c3 (by simp)
              simp only [List.cons_append, Option.some_bind]
              simp [afterON, munch1_neg _ _ _ h3]
        · simp [eatLit, h1, h2]
      · simp [eatLit, h1]

theorem bandMatch_behead (s₀ : Char) (s₁ : List Char) (h : pyIsSpace s₀ = false) :
    bandMatch ('F' :: 'i' :: 'l' :: 't' :: 'e' :: 'r' :: ' ' :: '7' :: ':' :: ' ' :: s₀ :: s₁) =
      stageON ['7'] (s₀ :: s₁) := by
  simp only [bandMatch, Option.bind_eq_bind]
  rw [show eatLit "Filter".data
      ('F' :: 'i' :: 'l' :: 't' :: 'e' :: 'r' :: ' ' :: '7' :: ':' :: ' ' :: s₀ :: s₁) =
      some (' ' :: '7' :: ':' :: ' ' :: s₀ :: s₁) from rfl]
  rw [Option.some_bind]
  rw [show munch1 pyIsSpace (' ' :: '7' :: ':' :: ' ' :: s₀ :: s₁) =
      some ([' '], '7' :: ':' :: ' ' :: s₀ :: s₁) from rfl]
  rw [Option.some_bind]
  rw [show munch1 Char.isDigit ('7' :: ':' :: ' ' :: s₀ :: s₁) =
      some (['7'], ':' :: ' ' :: s₀ :: s₁) from rfl]
  rw [Option.some_bind]
  rw [show eatLit ":".data (':' :: ' ' :: s₀ :: s₁) = some (' ' :: s₀ :: s₁) from rfl]
  rw [Option.some_bind]
  rw [munch1_pos pyIsSpace ' ' (s₀ :: s₁) (by decide), munch0_neg pyIsSpace s₀ s₁ h]
  rw [Option.some_bind]

theorem bandMatch_statusNotON (status rest : List Char) (hne : status ≠ [])
    (hall : ∀ c ∈ status, pyIsSpace c = false) (hON : status ≠ ['O', 'N']) :
    bandMatch ("Filter 7: ".data ++ (status ++ ' ' :: rest)) = none := by
  match status with
  | c :: cs' =>
      have h0 : pyIsSpace c = false := hall c (by simp)
      have he : ("Filter 7: ".data ++ ((c :: cs') ++ ' ' :: rest)) =
          ('F' :: 'i' :: 'l' :: 't' :: 'e' :: 'r' :: ' ' :: '7' :: ':' :: ' ' :: c ::
            (cs' ++ ' ' :: rest)) := rfl
      rw [he, bandMatch_behead c (cs' ++ ' ' :: rest) h0]
      have he2 : (c :: (cs' ++ ' ' :: rest)) = ((c :: cs') ++ ' ' :: rest) := rfl
      rw [he2]
      exact stageON_fail ['7'] (c :: cs') rest hne hall hON

theorem munch0_fst_all (p : Char → Bool) : ∀ cs : List Char, ((munch0 p cs).1).all p = true := by
  intro cs
  induction cs with
  | nil => simp [munch0]
  | cons c cs ih =>
      by_cases h : p c
      · simp [munch0, h, ih]
      · simp [munch0, h]

theorem munch1_all (p : Char → Bool) (cs t r : List Char)
    (h : munch1 p cs = some (t, r)) : t.all p = true := by
  match cs with
  | [] => simp [munch1] at h
  | c :: cs =>
      by_cases hc : p c
      · rw [munch1_pos p c cs hc] at h
        injection h with h
        injection h with h1 h2
        subst h1
        simp [hc, munch0_fst_all]
      · rw [munch1_neg p c cs (by simpa using hc)] at h
        cases h

theorem bandMatch_ok_freqS (cs : List Char) (m : RawMatch) (h : bandMatch cs = some m) :
    m.freqS.all isDigitDot = true := by
  simp only [bandMatch, stageON, afterON, Option.bind_eq_bind, Option.bind_eq_some] at h
  obtain ⟨cs1, h1, h⟩ := h
  obtain ⟨⟨x2, cs2⟩, h2, h⟩ := h
  obtain ⟨⟨numS, cs3⟩, h3, h⟩ := h
  obtain ⟨cs4, h4, h⟩ := h
  obtain ⟨⟨x5, cs5⟩, h5, h⟩ := h
  obtain ⟨cs6, h6, h⟩ := h
  obtain ⟨⟨x7, cs7⟩, h7, h⟩ := h
  obtain ⟨⟨codeS, cs8⟩, h8, h⟩ := h
  obtain ⟨⟨x9, cs9⟩, h9, h⟩ := h
  obtain ⟨cs10, h10, h⟩ := h
  obtain ⟨⟨x11, cs11⟩, h11, h⟩ := h
  obtain ⟨⟨freqS, cs12⟩, h12, h⟩ := h
  obtain ⟨cs13, h13, h⟩ := h
  rcases hg : tryGroup gainClause cs13 with ⟨gS, cs14⟩
  rw [hg] at h
  dsimp only at h
  rcases hq : tryGroup qClause cs14 with ⟨qS, cs15⟩
  rw [hq] at h
  dsimp only at h
  simp only [Option.pure_def, Option.some.injEq] at h
  subst h
  exact munch1_all isDigitDot cs11 freqS cs12 h12

theorem pyTrunc_nonneg (q : ℚ) (h : 0 ≤ q) : 0 ≤ pyTrunc q := by
  unfold pyTrunc
  obtain ⟨n, hn⟩ := Int.eq_ofNat_of_zero_le (Rat.num_nonneg.mpr h)
  rw [hn]
  exact Int.ofNat_zero_le (n / q.den)

theorem pyFloat_nonneg (cs : List Char) (q : ℚ) (hall : cs.all isDigitDot = true)
    (h : pyFloat? cs = some q) : 0 ≤ q := by
  match cs with
  | [] => simp [pyFloat?] at h
  | c :: rest =>
      have hc : isDigitDot c = true := by
        simp only [List.all_cons, Bool.and_eq_true] at hall
        exact hall.1
      have hcm : ¬(c = '-') := by
        intro e
        rw [e] at hc
        exact absurd hc (by decide)
      simp only [pyFloat?] at h
      rw [if_neg hcm] at h
      obtain ⟨p, hp, hq⟩ := Option.map_eq_some'.mp h
      subst hq
      exact Rat.mkRat_nonneg (Int.natCast_nonneg _) _

/-!
Claim theorems.
-/

/-- C1: the claim says `parse_eq_file` never raises on a readable stream —
grammar failures, unknown filter codes, and unparseable numeric literals are
all skipped.  Evaluating the embedded code: a matched line whose frequency
field is the malformed literal `1.2.3` makes the scan abort with a
`ValueError` (the `float` conversions sit outside the inner `try` and the
outer handler re-raises), while grammar failures and unknown filter codes are
indeed skipped and scanning continues. -/
theorem claim_C1_eval :
    parse_eq_file ["Filter 1: ON PK Fc 1.2.3Hz",
        "Filter 2: ON PK Fc 100Hz Gain 1dB Q 1"] = .error .valueError ∧
    parse_eq_file ["this line does not match",
        "Filter 3: ON XX Fc 100Hz Gain 1dB Q 1",
        "Filter 4: ON PK Fc 100Hz Gain 1dB Q 1"] =
      .ok [⟨3, .PEAKING, 100, some 1, some 1⟩] :=
  ⟨by decide, by decide⟩

/-- C2 (counterexample): with a connected device reporting version (1, 8),
the session returns failure with `disconnectAttempted = false` — disconnect
is NOT performed on the version-too-old exit path, refuting the claim that a
disconnect call is still performed before returning. -/
theorem claim_C2_counterexample :
    connect_and_apply_eq ⟨true, none, .ok (1, 8), none, none⟩ =
      (⟨true, true, false, false⟩, .ok false) ∧
    (connect_and_apply_eq ⟨true, none, .ok (1, 8), none, none⟩).1.disconnectAttempted =
      false := by
  exact ⟨by decide, by decide⟩

/-- C2 (amended): when the connection and info query succeed but the device
reports an API version below the 1.9 floor, `connect_and_apply_eq` returns
failure WITHOUT attempting a disconnect — the `return False` in the
version-check `else` branch exits before `client.disconnect()` is reached;
disconnect runs only on the fully successful path. -/
theorem claim_C2 (env : SessionEnv) (v : ℕ × ℕ) (hv : env.hostValid = true)
    (hc : env.connect = none) (hi : env.getInfo = .ok v)
    (hver : versionAtLeast19 v = false) :
    connect_and_apply_eq env = (⟨true, true, false, false⟩, .ok false) :=
  capply_old_version env v hv hc hi hver

/-- C2 witness: the amended theorem applied to a device reporting (1, 8). -/
theorem claim_C2_witness :
    connect_and_apply_eq ⟨true, none, .ok (1, 8), some .osError, some .osError⟩ =
      (⟨true, true, false, false⟩, .ok false) :=
  claim_C2 ⟨true, none, .ok (1, 8), some .osError, some .osError⟩ (1, 8)
    rfl rfl rfl (by decide)

/-- C3 (counterexample): with a host that fails address validation, the
orchestrator returns the plain boolean failure outcome `(ok false)` with no
connection attempted — the failure does NOT propagate as a hard error to the
driver, refuting the claim. -/
theorem claim_C3_counterexample :
    connect_and_apply_eq ⟨false, some .clientConnectorError, .ok (1, 9), none, none⟩ =
      (⟨false, false, false, false⟩, .ok false) ∧
    exceptIsOk
      (connect_and_apply_eq
        ⟨false, some .clientConnectorError, .ok (1, 9), none, none⟩).2 = true := by
  exact ⟨by decide, by decide⟩

/-- C3 (amended): when the host does not parse as a valid network address,
the `ValueError` is caught inside `connect_and_apply_eq`, which returns the
boolean failure outcome before any connection attempt; it never propagates
to the driver. -/
theorem claim_C3 (env : SessionEnv) (hv : env.hostValid = false) :
    connect_and_apply_eq env = (⟨false, false, false, false⟩, .ok false) :=
  capply_invalid_host env hv

/-- C3 witness: the amended theorem applied to an invalid-host session. -/
theorem claim_C3_witness :
    connect_and_apply_eq ⟨false, none, .ok (1, 9), none, none⟩ =
      (⟨false, false, false, false⟩, .ok false) :=
  claim_C3 ⟨false, none, .ok (1, 9), none, none⟩ rfl

/-- C4: for every input, the band collection returned by `parse_eq_file` has
length at most 7, and once a parse of a line list succeeds with 7 records,
appending any further lines (read or not, valid or not) leaves the result
unchanged — scanning stopped at the 7th record. -/
theorem claim_C4 (lines : List String) :
    (∀ bs, parse_eq_file lines = .ok bs → bs.length ≤ 7) ∧
    (∀ extra bs, parse_eq_file lines = .ok bs → bs.length = 7 →
      parse_eq_file (lines ++ extra) = .ok bs) :=
  ⟨fun bs h => parseLoop_length_le lines [] bs (by decide) h,
   fun extra bs h h7 => parseLoop_stop lines extra [] bs (by decide) h h7⟩

/-- C4 witness: seven valid lines followed by a line that would raise if it
were read; the result is the seven records, unchanged by the extra line. -/
theorem claim_C4_witness :
    parse_eq_file (List.replicate 7 "Filter 1: ON PK Fc 100Hz Gain 1dB Q 1" ++
        ["Filter 9: ON PK Fc 1.2.3Hz"]) =
      .ok (List.replicate 7 ⟨0, .PEAKING, 100, some 1, some 1⟩) ∧
    (List.replicate 7 (⟨0, .PEAKING, 100, some 1, some 1⟩ : EQBand)).length ≤ 7 :=
  ⟨(claim_C4 (List.replicate 7 "Filter 1: ON PK Fc 100Hz Gain 1dB Q 1")).2
      ["Filter 9: ON PK Fc 1.2.3Hz"]
      (List.replicate 7 ⟨0, .PEAKING, 100, some 1, some 1⟩) (by decide) (by decide),
   (claim_C4 (List.replicate 7 "Filter 1: ON PK Fc 100Hz Gain 1dB Q 1")).1
      (List.replicate 7 ⟨0, .PEAKING, 100, some 1, some 1⟩) (by decide)⟩

/-- C5: `connect_and_apply_eq` never raises to its caller (its outcome is
always `.ok`), and on a transport-level connection failure it returns failure
with the info query and the settings-apply never reached. -/
theorem claim_C5 (env : SessionEnv) :
    (∃ b t, connect_and_apply_eq env = (t, .ok b)) ∧
    (∀ e, env.connect = some e → env.hostValid = true →
      connect_and_apply_eq env = (⟨true, false, false, false⟩, .ok false)) :=
  ⟨capply_never_raises env, fun e he hv => capply_transport_fail env e hv he⟩

/-- C5 witness: a session whose connect raises `ClientConnectorError`. -/
theorem claim_C5_witness :
    (∃ b t, connect_and_apply_eq
        ⟨true, some .clientConnectorError, .ok (1, 9), none, none⟩ = (t, .ok b)) ∧
    connect_and_apply_eq ⟨true, some .clientConnectorError, .ok (1, 9), none, none⟩ =
      (⟨true, false, false, false⟩, .ok false) :=
  ⟨(claim_C5 ⟨true, some .clientConnectorError, .ok (1, 9), none, none⟩).1,
   (claim_C5 ⟨true, some .clientConnectorError, .ok (1, 9), none, none⟩).2
     .clientConnectorError rfl rfl⟩

/-- C6 (counterexample): the line `Filter 1: ON PK Fc 0.5Hz Gain 1dB Q 1` is
accepted and its record's frequency is 0 — not positive — refuting the
claim that no accepted record has a non-positive frequency. -/
theorem claim_C6_counterexample :
    parse_eq_file ["Filter 1: ON PK Fc 0.5Hz Gain 1dB Q 1"] =
      .ok [⟨0, .PEAKING, 0, some 1, some 1⟩] ∧
    ¬(0 < (⟨0, EQFilterType.PEAKING, 0, some 1, some 1⟩ : EQBand).freq) :=
  ⟨by decide, by decide⟩

/-- C6 (amended): every accepted band's frequency is obtained from the
captured decimal by truncation (e.g. `Fc 1000.9Hz` yields 1000) and is
nonnegative; it can, however, be zero (positivity is not enforced). -/
theorem claim_C6 :
    (∀ cs m b, bandMatch cs = some m → mkBand m = .ok (some b) →
      0 ≤ b.freq ∧ ∃ fq, pyFloat? m.freqS = some fq ∧ b.freq = pyTrunc fq) ∧
    parse_eq_file ["Filter 1: ON PK Fc 1000.9Hz Gain 2dB Q 1"] =
      .ok [⟨0, .PEAKING, 1000, some 2, some 1⟩] := by
  constructor
  · intro cs m b hm hb
    obtain ⟨fq, hfq, hfr, -, -, -⟩ := mkBand_ok_spec m b hb
    have hall := bandMatch_ok_freqS cs m hm
    have h0 : 0 ≤ fq := pyFloat_nonneg _ _ hall hfq
    exact ⟨hfr ▸ pyTrunc_nonneg fq h0, fq, hfq, hfr⟩
  · decide

/-- C6 witness: the amended theorem applied to the matched `1000.9` line. -/
theorem claim_C6_witness :
    0 ≤ (⟨0, EQFilterType.PEAKING, 1000, some 2, some 1⟩ : EQBand).freq :=
  (claim_C6.1 "Filter 1: ON PK Fc 1000.9Hz Gain 2dB Q 1".data
    ⟨"1".data, "PK".data, "1000.9".data, some "2".data, some "1".data⟩
    ⟨0, EQFilterType.PEAKING, 1000, some 2, some 1⟩ (by decide) (by decide)).1

/-- C7: a missing Gain clause (respectively Q clause) yields an absent gain
(respectively q) field on every successfully constructed record, and the
absent value is distinguishable from a parsed zero: `Gain 0dB` parses to
`some 0`, not `none`. -/
theorem claim_C7 :
    (∀ m b, mkBand m = .ok (some b) →
      (m.gainS = none → b.gain = none) ∧ (m.qS = none → b.q = none)) ∧
    parse_eq_file ["Filter 1: ON LP Fc 100Hz"] =
      .ok [⟨0, .LOWPASS, 100, none, none⟩] ∧
    parse_eq_file ["Filter 2: ON HP Fc 50Hz Q 0.7"] =
      .ok [⟨1, .HIGHPASS, 50, none, some (mkRat 7 10)⟩] ∧
    parse_eq_file ["Filter 3: ON LS Fc 80Hz Gain 3dB"] =
      .ok [⟨2, .LOWSHELF, 80, some 3, none⟩] ∧
    parse_eq_file ["Filter 1: ON PK Fc 100Hz Gain 0dB Q 1"] =
      .ok [⟨0, .PEAKING, 100, some 0, some 1⟩] ∧
    some (0 : ℚ) ≠ (none : Option ℚ) := by
  refine ⟨?_, by decide, by decide, by decide, by decide, by simp⟩
  intro m b h
  obtain ⟨fq, -, -, -, hg, hq⟩ := mkBand_ok_spec m b h
  exact ⟨hg, hq⟩

/-- C7 witness: the general part applied to the match of
`Filter 1: ON LP Fc 100Hz`, whose Gain and Q clauses are both missing. -/
theorem claim_C7_witness :
    (⟨0, EQFilterType.LOWPASS, 100, none, none⟩ : EQBand).gain = none ∧
    (⟨0, EQFilterType.LOWPASS, 100, none, none⟩ : EQBand).q = none :=
  ⟨(claim_C7.1 ⟨"1".data, "LP".data, "100".data, none, none⟩
      ⟨0, EQFilterType.LOWPASS, 100, none, none⟩ (by decide)).1 rfl,
   (claim_C7.1 ⟨"1".data, "LP".data, "100".data, none, none⟩
      ⟨0, EQFilterType.LOWPASS, 100, none, none⟩ (by decide)).2 rfl⟩

/-- C8: every constructed record's index is the captured 1-based filter
number minus one, and repeated or non-sequential band numbers are kept as-is
in scan order with no deduplication (two `Filter 5` lines produce two records
of index 4, followed by the `Filter 2` record of index 1). -/
theorem claim_C8 :
    (∀ m b, mkBand m = .ok (some b) → b.index = (digitsToNat m.numS : ℤ) - 1) ∧
    parse_eq_file ["Filter 5: ON PK Fc 100Hz Gain 1dB Q 1",
        "Filter 5: ON PK Fc 200Hz Gain 2dB Q 2",
        "Filter 2: ON PK Fc 300Hz Gain 3dB Q 3"] =
      .ok [⟨4, .PEAKING, 100, some 1, some 1⟩, ⟨4, .PEAKING, 200, some 2, some 2⟩,
        ⟨1, .PEAKING, 300, some 3, some 3⟩] := by
  refine ⟨?_, by decide⟩
  intro m b h
  obtain ⟨fq, -, -, hi, -, -⟩ := mkBand_ok_spec m b h
  exact hi

/-- C8 witness: the general part applied to the match of a `Filter 5` line:
the record's index is 4 = 5 - 1. -/
theorem claim_C8_witness :
    (⟨4, EQFilterType.PEAKING, 100, some 1, some 1⟩ : EQBand).index =
      (digitsToNat "5".data : ℤ) - 1 :=
  claim_C8.1 ⟨"5".data, "PK".data, "100".data, some "1".data, some "1".data⟩
    ⟨4, EQFilterType.PEAKING, 100, some 1, some 1⟩ (by decide)

/-- C9: a line whose status token is anything other than exactly `ON` (e.g.
`OFF`) never matches the pattern, a non-matching line contributes no record,
and a file pairing an otherwise-valid `OFF` line with a valid `ON` line
yields only the latter's record. -/
theorem claim_C9 (status rest : List Char) (hne : status ≠ [])
    (hall : ∀ c ∈ status, pyIsSpace c = false) (hON : status ≠ ['O', 'N']) :
    bandMatch ("Filter 7: ".data ++ (status ++ ' ' :: rest)) = none ∧
    (∀ s : String, bandMatch (pyStrip s.data) = none → processLine s = .ok none) ∧
    parse_eq_file ["Filter 1: OFF PK Fc 100Hz Gain 1dB Q 1",
        "Filter 2: ON PK Fc 100Hz Gain 1dB Q 1"] =
      .ok [⟨1, .PEAKING, 100, some 1, some 1⟩] := by
  refine ⟨bandMatch_statusNotON status rest hne hall hON, ?_, by decide⟩
  intro s hs
  simp [processLine, hs]

/-- C9 witness: the theorem applied to the status token `OFF` on an
otherwise-valid remainder, plus the skip of a concrete `OFF` line. -/
theorem claim_C9_witness :
    bandMatch ("Filter 7: ".data ++
      ("OFF".data ++ ' ' :: "PK Fc 100Hz Gain 1dB Q 1".data)) = none ∧
    processLine "Filter 1: OFF PK Fc 100Hz Gain 1dB Q 1" = .ok none :=
  ⟨(claim_C9 "OFF".data "PK Fc 100Hz Gain 1dB Q 1".data (by decide) (by decide)
      (by decide)).1,
   (claim_C9 "OFF".data "PK Fc 100Hz Gain 1dB Q 1".data (by decide) (by decide)
      (by decide)).2.1 "Filter 1: OFF PK Fc 100Hz Gain 1dB Q 1" (by decide)⟩

/-- C10: the Q capture group `[\d.]+` cannot start at a minus sign, so an
otherwise-valid line whose Q clause carries a negative value still matches —
with the whole Q clause left as unmatched trailing text and the q capture
absent — and parsing such a line yields a record with `q = none`. -/
theorem claim_C10 :
    (∀ ds : List Char, bandMatch ("Filter 1: ON PK Fc 100Hz Q -".data ++ ds) =
      some ⟨['1'], ['P', 'K'], ['1', '0', '0'], none, none⟩) ∧
    parse_eq_file ["Filter 1: ON PK Fc 100Hz Q -1.5"] =
      .ok [⟨0, .PEAKING, 100, none, none⟩] :=
  ⟨fun _ => rfl, by decide⟩

/-- C10 witness: the general part instantiated at the trailing text `1.5`,
i.e. the full clause `Q -1.5`. -/
theorem claim_C10_witness :
    bandMatch ("Filter 1: ON PK Fc 100Hz Q -".data ++ "1.5".data) =
      some ⟨['1'], ['P', 'K'], ['1', '0', '0'], none, none⟩ :=
  claim_C10.1 "1.5".data

end Rew2StreamMagic
